import Mathlib

/-!
Shallow embedding of `src/main.py`, the FastAPI "Resume GPT API" gateway.
Each HTTP handler is modelled as a pure function from an environment
describing the two external collaborators (the Supabase database client and
the OpenAI chat-completion client) to a result paired with the ordered trace
of outbound calls, mirroring the Python control flow statement by statement.
-/

namespace ResumeGPT

/-- JSON-like value: the payload type of the Python dicts the service moves
around (row cells, filter values, rpc arguments and results). -/
inductive JVal where
  | jstr (s : String)
  | jint (n : Int)
  | jbool (b : Bool)
  | jnull
  | jarr (elems : List JVal)
  | jobj (fields : List (String × JVal))

/-- A row as returned or consumed by supabase-py: a Python dict from column
name to value, kept as an association list in insertion order. -/
abbrev DBRow := List (String × JVal)

mutual

/-- CPython `repr` of a `JVal`, to the fidelity this service can observe
(string escaping inside `repr` is not modelled; the handlers only ever
stringify scalar cells). -/
def pyRepr : JVal → String
  | JVal.jstr s => "'" ++ s ++ "'"
  | JVal.jint n => toString n
  | JVal.jbool b => if b then "True" else "False"
  | JVal.jnull => "None"
  | JVal.jarr xs => "[" ++ pyReprList xs ++ "]"
  | JVal.jobj fs => "\x7b" ++ pyReprFields fs ++ "\x7d"

/-- Comma-separated `repr` of list elements. -/
def pyReprList : List JVal → String
  | [] => ""
  | [x] => pyRepr x
  | x :: y :: xs => pyRepr x ++ ", " ++ pyReprList (y :: xs)

/-- Comma-separated `repr` of dict entries. -/
def pyReprFields : List (String × JVal) → String
  | [] => ""
  | [kv] => "'" ++ kv.1 ++ "': " ++ pyRepr kv.2
  | kv :: kw :: kvs => "'" ++ kv.1 ++ "': " ++ pyRepr kv.2 ++ ", " ++ pyReprFields (kw :: kvs)

end

/-- CPython `str` of a `JVal` (as used by f-string interpolation): identity on
strings, `repr` otherwise. -/
def pyToStr : JVal → String
  | JVal.jstr s => s
  | v => pyRepr v

/-- Python truthiness of an optional list-like value (`None` and the empty
dict/list are falsy). -/
def truthyOptList : Option (List α) → Bool
  | none => false
  | some l => !l.isEmpty

/-- Python truthiness of an optional integer (`None` and `0` are falsy). -/
def truthyOptInt : Option Int → Bool
  | none => false
  | some n => n != 0

/-- Python truthiness of an optional string (`None` and `""` are falsy). -/
def truthyOptStr : Option String → Bool
  | none => false
  | some s => s != ""

/-- The read-query object accumulated by chaining supabase-py builder methods
`table(t).select(s)` / `.eq` / `.order` / `.limit` before `.execute()`. -/
structure SupabaseQuery where
  table : String
  select : String
  eqFilters : List (String × JVal)
  orders : List (String × Bool)
  limitVal : Option Int

/-- `supabase.table(t).select(s)`: a fresh query with no filters, no ordering
and no limit. -/
def tableSelect (table select : String) : SupabaseQuery :=
  { table := table, select := select, eqFilters := [], orders := [], limitVal := none }

/-- `query.eq(column, value)`: append one equality predicate (supabase ANDs
all chained filters). -/
def SupabaseQuery.eq (q : SupabaseQuery) (column : String) (value : JVal) : SupabaseQuery :=
  { q with eqFilters := q.eqFilters ++ [(column, value)] }

/-- `query.order(column, desc=d)`: append one ordering entry; `desc=False`
means ascending. -/
def SupabaseQuery.order (q : SupabaseQuery) (column : String) (desc : Bool) : SupabaseQuery :=
  { q with orders := q.orders ++ [(column, desc)] }

/-- `query.limit(n)`: set the row-count limit. -/
def SupabaseQuery.limit (q : SupabaseQuery) (n : Int) : SupabaseQuery :=
  { q with limitVal := some n }

/-- Payload of a supabase `insert`: the Python endpoint accepts
`Union[Dict[str, Any], List[Dict[str, Any]]]`. -/
inductive InsertPayload where
  | one (row : DBRow)
  | many (rows : List DBRow)

/-- One table-scoped database call (`...execute()` on a builder chain). -/
inductive DBTableCall where
  | query (q : SupabaseQuery)
  | insert (table : String) (payload : InsertPayload)
  | update (table : String) (data : DBRow) (matchColumn : String) (matchValue : JVal)
  | delete (table : String) (matchColumn : String) (matchValue : JVal)

/-- One message sent to the chat-completion API. -/
structure ChatMsg where
  role : String
  content : String
deriving DecidableEq

/-- The `message` object inside a returned completion choice. -/
structure ChatMessageOut where
  content : String
deriving DecidableEq

/-- One returned completion choice. -/
structure ChatChoice where
  message : ChatMessageOut
deriving DecidableEq

/-- The response of `openai.ChatCompletion.create`. -/
structure ChatResponse where
  choices : List ChatChoice
deriving DecidableEq

/-- One outbound call to an external collaborator. -/
inductive Call where
  | table (c : DBTableCall)
  | rpc (fn : String) (args : Option (List (String × JVal)))
  | chat (model : String) (messages : List ChatMsg)

/-- The external world as seen by one request: whether the two global client
handles are configured, and the behaviour of each outbound call (`.error m`
models the client raising an exception whose `str` is `m`). -/
structure Env where
  supabaseConfigured : Bool
  openaiConfigured : Bool
  table : DBTableCall → Except String (List DBRow)
  rpc : String → Option (List (String × JVal)) → Except String JVal
  chat : String → List ChatMsg → Except String ChatResponse

/-- An exception in flight inside a handler's `try` block. -/
inductive Exc where
  | httpExc (status : Nat) (detail : String)
  | pyExc (msg : String)
deriving DecidableEq

/-- CPython `str(e)`: starlette's `HTTPException.__str__` prints
`"status: detail"`; for other exceptions the carried message. -/
def strOfExc : Exc → String
  | Exc.httpExc status detail => toString status ++ ": " ++ detail
  | Exc.pyExc msg => msg

/-- An HTTP error response (FastAPI `HTTPException`) as seen by the caller. -/
structure HTTPError where
  status : Nat
  detail : String
deriving DecidableEq

/-- Handler computation: threads the trace of outbound calls and may stop
with an exception.  The trace survives the exception, so theorems can speak
about which calls were issued before a failure. -/
def HandlerM (α : Type) : Type := List Call → Except Exc α × List Call

/-- Return a value, leaving the trace unchanged. -/
def HandlerM.pure (a : α) : HandlerM α := fun t => (Except.ok a, t)

/-- Sequencing: on an exception the rest of the block is skipped. -/
def HandlerM.bind (x : HandlerM α) (f : α → HandlerM β) : HandlerM β := fun t =>
  match x t with
  | (Except.ok a, t1) => f a t1
  | (Except.error e, t1) => (Except.error e, t1)

instance : Monad HandlerM where
  pure := HandlerM.pure
  bind := HandlerM.bind

/-- `raise e` inside the `try` block. -/
def throwExc (e : Exc) : HandlerM α := fun t => (Except.error e, t)

/-- Issue one table-scoped database call and return its `.data`; a client
exception surfaces as `Exc.pyExc`. -/
def callTable (env : Env) (c : DBTableCall) : HandlerM (List DBRow) := fun t =>
  (match env.table c with
   | Except.ok rows => Except.ok rows
   | Except.error m => Except.error (Exc.pyExc m),
   t ++ [Call.table c])

/-- Issue one `supabase.rpc(fn, args).execute()` call and return its `.data`. -/
def callRpc (env : Env) (fn : String) (args : Option (List (String × JVal))) :
    HandlerM JVal := fun t =>
  (match env.rpc fn args with
   | Except.ok v => Except.ok v
   | Except.error m => Except.error (Exc.pyExc m),
   t ++ [Call.rpc fn args])

/-- Issue one `openai.ChatCompletion.create` call. -/
def callChat (env : Env) (model : String) (messages : List ChatMsg) :
    HandlerM ChatResponse := fun t =>
  (match env.chat model messages with
   | Except.ok r => Except.ok r
   | Except.error m => Except.error (Exc.pyExc m),
   t ++ [Call.chat model messages])

/-- Python `xs[0]`: `IndexError` on an empty list, with CPython's message. -/
def pyHead (xs : List α) : HandlerM α :=
  match xs with
  | [] => throwExc (Exc.pyExc "list index out of range")
  | x :: _ => HandlerM.pure x

/-- Python `row[k]` on a dict: `KeyError` when the key is absent; CPython's
`str(KeyError(k))` is the quoted key. -/
def dictGet (row : DBRow) (k : String) : HandlerM JVal :=
  match row.lookup k with
  | some v => HandlerM.pure v
  | none => throwExc (Exc.pyExc ("'" ++ k ++ "'"))

/-- Result of a whole handler: the HTTP-level outcome and the trace of
outbound calls it issued. -/
abbrev HandlerResult (α : Type) := Except HTTPError α × List Call

/-- The `try ... except Exception as e: raise HTTPException(500, str(e))`
boundary wrapped around every handler body: any in-flight exception —
including an `HTTPException` raised inside the `try` — is re-reported as a
500 whose detail is `str(e)`. -/
def runHandler (body : HandlerM α) : HandlerResult α :=
  match body [] with
  | (Except.ok a, t) => (Except.ok a, t)
  | (Except.error e, t) => (Except.error { status := 500, detail := strOfExc e }, t)

/-- The `HTTPException(500, detail)` raised by the configuration guards
before the `try` block: no outbound call has been issued. -/
def configError (detail : String) : HandlerResult α :=
  (Except.error { status := 500, detail := detail }, [])

/-- Detail text of the Supabase configuration guard. -/
def supabaseNotInitializedDetail : String :=
  "Supabase client not initialized. Check environment variables."

/-- Detail text of the OpenAI configuration guard in `tailor_resume`. -/
def openaiNotConfiguredDetail : String :=
  "OpenAI API key not configured. Check environment variables."

/-! ## Request and response models (the pydantic models of `main.py`) -/

/-- Request body of `POST /tailor-resume`. -/
structure TailorResumeRequest where
  user_id : String
  job_id : Int
deriving DecidableEq

/-- Response body of `POST /tailor-resume`. -/
structure TailorResumeResponse where
  user_id : String
  job_id : Int
  tailored_resume : String
deriving DecidableEq

/-- Response body of `POST /insert-sample-data`.  The source declares
`job_id : int`; the store-assigned id is carried here as the JSON value the
store returned. -/
structure SampleDataResponse where
  message : String
  user_id : String
  job_id : JVal

/-- Response body of the generic gateway endpoints. -/
structure GenericResponse where
  message : String
  data : JVal

/-- Request body of `POST /query` (`select` defaults to `"*"`). -/
structure QueryParams where
  table : String
  select : String := "*"
  filters : Option (List (String × JVal)) := none
  limit : Option Int := none
  order : Option (List (String × String)) := none

/-- Request body of `POST /insert`. -/
structure InsertDataRequest where
  table : String
  data : InsertPayload

/-- Request body of `POST /update`. -/
structure UpdateDataRequest where
  table : String
  data : DBRow
  match_column : String
  match_value : JVal

/-- Request body of `POST /delete`. -/
structure DeleteDataRequest where
  table : String
  match_column : String
  match_value : JVal

/-- Request body of `POST /execute-sql`. -/
structure ExecuteRawSQLRequest where
  query : String
  params : Option (List (String × JVal)) := none

/-- Request body of `POST /create-table`; `columns` is the column-name →
type-string dict in its insertion (iteration) order. -/
structure CreateTableRequest where
  table_name : String
  columns : List (String × String)
  primary_key : Option String := none

/-- Request body of `POST /upload-resume`. -/
structure ResumeUploadRequest where
  user_id : Option String := none
  content : String

/-- Request body of `POST /upload-job-description`. -/
structure JobDescriptionUploadRequest where
  description : String

/-! ## Fixed strings of `main.py` -/

/-- The fixed sample resume inserted by `insert_sample_data`. -/
def sampleBaseResume : String :=
  "\n        John Doe\n        Software Engineer\n        \n        Experience:\n        - Senior Software Engineer at Tech Corp (2020-Present)\n          * Led development of microservices architecture\n          * Implemented CI/CD pipelines\n          * Mentored junior developers\n        \n        - Software Engineer at Startup Inc (2018-2020)\n          * Developed RESTful APIs\n          * Worked with React and Node.js\n          * Implemented automated testing\n        \n        Skills:\n        - Python, JavaScript, React, Node.js\n        - AWS, Docker, Kubernetes\n        - Agile methodologies\n        "

/-- The fixed sample job description inserted by `insert_sample_data`. -/
def sampleJobDescription : String :=
  "\n        Senior Full Stack Developer\n        \n        We are looking for a Senior Full Stack Developer to join our team. The ideal candidate will have:\n        \n        Requirements:\n        - 5+ years of experience in software development\n        - Strong experience with React and Node.js\n        - Experience with microservices architecture\n        - Knowledge of AWS and cloud technologies\n        - Experience with CI/CD pipelines\n        - Strong problem-solving skills\n        \n        Responsibilities:\n        - Develop and maintain web applications\n        - Design and implement microservices\n        - Work with cloud technologies\n        - Mentor junior developers\n        - Implement CI/CD pipelines\n        "

/-- Text of the tailoring prompt before the interpolated resume content. -/
def promptPrefix : String :=
  "\n        Please tailor the following resume to match the job description.\n        \n        Base Resume:\n        "

/-- Text of the tailoring prompt between the resume content and the job
description. -/
def promptMiddle : String :=
  "\n        \n        Job Description:\n        "

/-- Text of the tailoring prompt after the interpolated job description. -/
def promptSuffix : String :=
  "\n        \n        Please provide a tailored version of the resume that highlights relevant skills and experiences.\n        "

/-- The f-string `prompt` of `tailor_resume`: the cell values fetched from
the two lookups are interpolated with Python `str`. -/
def tailorPrompt (baseResumeContent jobDescription : JVal) : String :=
  promptPrefix ++ pyToStr baseResumeContent ++ promptMiddle ++
    pyToStr jobDescription ++ promptSuffix

/-- The fixed system message of the completion call. -/
def systemMessage : ChatMsg :=
  { role := "system", content := "You are a professional resume writer." }

/-! ## Handlers -/

/-- `GET /`: static greeting, no side effects. -/
def rootWelcomeMessage : String := "Welcome to Resume GPT API"

/-- The `resume_data` dict inserted into `resumes`. -/
def resumeRowData (userId content : String) : DBRow :=
  [("user_id", JVal.jstr userId), ("content", JVal.jstr content)]

/-- The `job_data` dict inserted into `job_descriptions`. -/
def jobRowData (description : String) : DBRow :=
  [("description", JVal.jstr description)]

/-- Body of `POST /insert-sample-data` inside the `try` block.  `freshUserId`
models the `str(uuid.uuid4())` drawn by this call. -/
def insertSampleDataBody (env : Env) (freshUserId : String) :
    HandlerM SampleDataResponse := do
  let _ ← callTable env
    (DBTableCall.insert "resumes" (InsertPayload.one (resumeRowData freshUserId sampleBaseResume)))
  let jobResp ← callTable env
    (DBTableCall.insert "job_descriptions" (InsertPayload.one (jobRowData sampleJobDescription)))
  let firstRow ← pyHead jobResp
  let jobId ← dictGet firstRow "id"
  HandlerM.pure
    { message := "Sample data inserted successfully", user_id := freshUserId, job_id := jobId }

/-- `POST /insert-sample-data`. -/
def insert_sample_data (env : Env) (freshUserId : String) :
    HandlerResult SampleDataResponse :=
  if env.supabaseConfigured then runHandler (insertSampleDataBody env freshUserId)
  else configError supabaseNotInitializedDetail

/-- The resume lookup of `tailor_resume`:
`table("resumes").select("*").eq("user_id", request.user_id)`. -/
def resumesQuery (userId : String) : SupabaseQuery :=
  (tableSelect "resumes" "*").eq "user_id" (JVal.jstr userId)

/-- The job lookup of `tailor_resume`:
`table("job_descriptions").select("*").eq("id", request.job_id)`. -/
def jobsQuery (jobId : Int) : SupabaseQuery :=
  (tableSelect "job_descriptions" "*").eq "id" (JVal.jint jobId)

/-- The `tailored_resume_data` dict inserted into `tailored_resumes`. -/
def tailoredRowData (userId : String) (jobId : Int) (baseResumeId : JVal)
    (content : String) : DBRow :=
  [("user_id", JVal.jstr userId), ("job_id", JVal.jint jobId),
   ("base_resume_id", baseResumeId), ("content", JVal.jstr content)]

/-- Body of `POST /tailor-resume` inside the `try` block.  Note that the two
`HTTPException(400, ...)` raises happen inside this block, so `runHandler`
re-reports them through the catch-all. -/
def tailorBody (env : Env) (req : TailorResumeRequest) :
    HandlerM TailorResumeResponse := do
  let resumeData ← callTable env (DBTableCall.query (resumesQuery req.user_id))
  if resumeData.isEmpty then
    throwExc (Exc.httpExc 400 "User not found")
  let baseResume ← pyHead resumeData
  let baseResumeId ← dictGet baseResume "id"
  let baseResumeContent ← dictGet baseResume "content"
  let jobData ← callTable env (DBTableCall.query (jobsQuery req.job_id))
  if jobData.isEmpty then
    throwExc (Exc.httpExc 400 "Job not found")
  let jobRow ← pyHead jobData
  let jobDescription ← dictGet jobRow "description"
  let resp ← callChat env "gpt-3.5-turbo"
    [systemMessage, { role := "user", content := tailorPrompt baseResumeContent jobDescription }]
  let firstChoice ← pyHead resp.choices
  let tailored := firstChoice.message.content
  let _ ← callTable env (DBTableCall.insert "tailored_resumes"
    (InsertPayload.one (tailoredRowData req.user_id req.job_id baseResumeId tailored)))
  HandlerM.pure { user_id := req.user_id, job_id := req.job_id, tailored_resume := tailored }

/-- `POST /tailor-resume`. -/
def tailor_resume (env : Env) (req : TailorResumeRequest) :
    HandlerResult TailorResumeResponse :=
  if env.supabaseConfigured then
    if env.openaiConfigured then runHandler (tailorBody env req)
    else configError openaiNotConfiguredDetail
  else configError supabaseNotInitializedDetail

/-- `GET /tables`. -/
def list_tables (env : Env) : HandlerResult GenericResponse :=
  if env.supabaseConfigured then
    runHandler (do
      let result ← callRpc env "get_tables" none
      HandlerM.pure { message := "Tables retrieved successfully", data := result })
  else configError supabaseNotInitializedDetail

/-- `GET /schema`. -/
def get_schema (env : Env) : HandlerResult GenericResponse :=
  if env.supabaseConfigured then
    runHandler (do
      let result ← callRpc env "get_schema_info" none
      HandlerM.pure { message := "Schema information retrieved successfully", data := result })
  else configError supabaseNotInitializedDetail

/-- The `for column, value in params.filters.items(): query = query.eq(...)`
loop of `query_data`. -/
def applyFilters (q : SupabaseQuery) (filters : List (String × JVal)) : SupabaseQuery :=
  filters.foldl (fun q cv => q.eq cv.1 cv.2) q

/-- Python `str.lower`, executably: lowercase every character.
(`Char.toLower` lowercases ASCII; CPython lowercasing agrees with it on
every string whose lowercase form could equal `"asc"`, the only comparison
the source performs on the result.) -/
def strLower (s : String) : String :=
  ⟨s.data.map Char.toLower⟩

/-- The `for column, direction in params.order.items(): ...` loop of
`query_data`: `direction.lower() == "asc"` selects ascending, anything else
descending.  (Python `str.lower` and `String.toLower` agree on every string
whose lowercasing could equal `"asc"`.) -/
def applyOrder (q : SupabaseQuery) (order : List (String × String)) : SupabaseQuery :=
  order.foldl
    (fun q cd => if strLower cd.2 = "asc" then q.order cd.1 false else q.order cd.1 true) q

/-- The query object `query_data` sends to `execute()`: filters, ordering and
limit are each applied under a Python truthiness guard. -/
def builtQuery (params : QueryParams) : SupabaseQuery :=
  let q := tableSelect params.table params.select
  let q := if truthyOptList params.filters then applyFilters q (params.filters.getD []) else q
  let q := if truthyOptList params.order then applyOrder q (params.order.getD []) else q
  if truthyOptInt params.limit then q.limit (params.limit.getD 0) else q

/-- The row list of a select/insert/update/delete response, as the JSON value
placed verbatim in `GenericResponse.data`. -/
def rowsToJVal (rows : List DBRow) : JVal :=
  JVal.jarr (rows.map JVal.jobj)

/-- `POST /query`. -/
def query_data (env : Env) (params : QueryParams) : HandlerResult GenericResponse :=
  if env.supabaseConfigured then
    runHandler (do
      let result ← callTable env (DBTableCall.query (builtQuery params))
      HandlerM.pure { message := "Data retrieved from " ++ params.table, data := rowsToJVal result })
  else configError supabaseNotInitializedDetail

/-- `POST /insert`. -/
def insert_data (env : Env) (req : InsertDataRequest) : HandlerResult GenericResponse :=
  if env.supabaseConfigured then
    runHandler (do
      let result ← callTable env (DBTableCall.insert req.table req.data)
      HandlerM.pure { message := "Data inserted into " ++ req.table, data := rowsToJVal result })
  else configError supabaseNotInitializedDetail

/-- `POST /update`. -/
def update_data (env : Env) (req : UpdateDataRequest) : HandlerResult GenericResponse :=
  if env.supabaseConfigured then
    runHandler (do
      let result ← callTable env
        (DBTableCall.update req.table req.data req.match_column req.match_value)
      HandlerM.pure { message := "Data updated in " ++ req.table, data := rowsToJVal result })
  else configError supabaseNotInitializedDetail

/-- `POST /delete`. -/
def delete_data (env : Env) (req : DeleteDataRequest) : HandlerResult GenericResponse :=
  if env.supabaseConfigured then
    runHandler (do
      let result ← callTable env
        (DBTableCall.delete req.table req.match_column req.match_value)
      HandlerM.pure { message := "Data deleted from " ++ req.table, data := rowsToJVal result })
  else configError supabaseNotInitializedDetail

/-- `POST /execute-sql`: `rpc('run_sql_query', dict(sql_query=query,
params=request.params or an empty dict))`. -/
def execute_raw_sql (env : Env) (req : ExecuteRawSQLRequest) : HandlerResult GenericResponse :=
  if env.supabaseConfigured then
    runHandler (do
      let result ← callRpc env "run_sql_query"
        (some [("sql_query", JVal.jstr req.query), ("params", JVal.jobj (req.params.getD []))])
      HandlerM.pure { message := "SQL query executed successfully", data := result })
  else configError supabaseNotInitializedDetail

/-- The `CREATE TABLE` statement string-built by `create_table`: one
`"name type"` element per column in iteration order, a `PRIMARY KEY (...)`
element under the truthiness guard `if request.primary_key:`, joined with
`", "` — no identifier escaping anywhere. -/
def createTableSQL (req : CreateTableRequest) : String :=
  let columnsSql := req.columns.foldl (fun acc ct => acc ++ [ct.1 ++ " " ++ ct.2]) []
  let columnsSql :=
    if truthyOptStr req.primary_key then
      columnsSql ++ ["PRIMARY KEY (" ++ req.primary_key.getD "" ++ ")"]
    else columnsSql
  "CREATE TABLE " ++ req.table_name ++ " (" ++ String.intercalate ", " columnsSql ++ ");"

/-- `POST /create-table`: executes the built statement via the same
`run_sql_query` remote procedure (without a `params` entry). -/
def create_table (env : Env) (req : CreateTableRequest) : HandlerResult GenericResponse :=
  if env.supabaseConfigured then
    runHandler (do
      let result ← callRpc env "run_sql_query"
        (some [("sql_query", JVal.jstr (createTableSQL req))])
      HandlerM.pure
        { message := "Table " ++ req.table_name ++ " created successfully", data := result })
  else configError supabaseNotInitializedDetail

/-- `user_id = request.user_id or str(uuid.uuid4())`: Python `or` falls back
to the fresh uuid when the supplied id is `None` or the empty string. -/
def uploadUserId (requested : Option String) (freshUserId : String) : String :=
  if truthyOptStr requested then requested.getD "" else freshUserId

/-- `POST /upload-resume`.  `freshUserId` models the `str(uuid.uuid4())`
drawn when the request supplies no (truthy) user id. -/
def upload_resume (env : Env) (freshUserId : String) (req : ResumeUploadRequest) :
    HandlerResult GenericResponse :=
  if env.supabaseConfigured then
    runHandler (do
      let userId := uploadUserId req.user_id freshUserId
      let result ← callTable env
        (DBTableCall.insert "resumes" (InsertPayload.one (resumeRowData userId req.content)))
      let resumeId ← match result with
        | [] => HandlerM.pure JVal.jnull
        | r :: _ => dictGet r "id"
      HandlerM.pure
        { message := "Resume uploaded successfully", data := JVal.jobj [("user_id", JVal.jstr userId), ("resume_id", resumeId)] })
  else configError supabaseNotInitializedDetail

/-- `POST /upload-job-description`. -/
def upload_job_description (env : Env) (req : JobDescriptionUploadRequest) :
    HandlerResult GenericResponse :=
  if env.supabaseConfigured then
    runHandler (do
      let result ← callTable env
        (DBTableCall.insert "job_descriptions" (InsertPayload.one (jobRowData req.description)))
      let jobId ← match result with
        | [] => HandlerM.pure JVal.jnull
        | r :: _ => dictGet r "id"
      HandlerM.pure
        { message := "Job description uploaded successfully", data := JVal.jobj [("job_id", jobId)] })
  else configError supabaseNotInitializedDetail

/-! ## Unfolding lemmas for the handler monad -/

@[simp] theorem HandlerM.pure_apply (a : α) (t : List Call) :
    HandlerM.pure a t = (Except.ok a, t) := rfl

@[simp] theorem HandlerM.monad_pure_apply (a : α) (t : List Call) :
    (pure a : HandlerM α) t = (Except.ok a, t) := rfl

@[simp] theorem HandlerM.bind_apply (x : HandlerM α) (f : α → HandlerM β) (t : List Call) :
    (x >>= f) t =
      match x t with
      | (Except.ok a, t1) => f a t1
      | (Except.error e, t1) => (Except.error e, t1) := rfl

@[simp] theorem strOfExc_pyExc (m : String) : strOfExc (Exc.pyExc m) = m := rfl

@[simp] theorem throwExc_apply {α : Type} (e : Exc) (t : List Call) :
    (throwExc e t : Except Exc α × List Call) = (Except.error e, t) := rfl

@[simp] theorem callTable_apply (env : Env) (c : DBTableCall) (t : List Call) :
    callTable env c t =
      (match env.table c with
       | Except.ok rows => Except.ok rows
       | Except.error m => Except.error (Exc.pyExc m),
       t ++ [Call.table c]) := rfl

@[simp] theorem callRpc_apply (env : Env) (fn : String)
    (args : Option (List (String × JVal))) (t : List Call) :
    callRpc env fn args t =
      (match env.rpc fn args with
       | Except.ok v => Except.ok v
       | Except.error m => Except.error (Exc.pyExc m),
       t ++ [Call.rpc fn args]) := rfl

@[simp] theorem callChat_apply (env : Env) (model : String) (messages : List ChatMsg)
    (t : List Call) :
    callChat env model messages t =
      (match env.chat model messages with
       | Except.ok r => Except.ok r
       | Except.error m => Except.error (Exc.pyExc m),
       t ++ [Call.chat model messages]) := rfl

/-! ## Characterising the query builder -/

/-- Accumulating `acc ++ [f x]` over a list is `map`. -/
theorem foldl_push_eq_map (l : List α) (f : α → β) (acc : List β) :
    l.foldl (fun a x => a ++ [f x]) acc = acc ++ l.map f := by
  induction l generalizing acc with
  | nil => simp
  | cons x xs ih => simp [List.foldl, ih]

/-- The filter loop appends its equality predicates, touching nothing else. -/
theorem applyFilters_spec (filters : List (String × JVal)) (q : SupabaseQuery) :
    applyFilters q filters = { q with eqFilters := q.eqFilters ++ filters } := by
  induction filters generalizing q with
  | nil => simp [applyFilters]
  | cons cv fs ih =>
    rw [show applyFilters q (cv :: fs) = applyFilters (q.eq cv.1 cv.2) fs from rfl, ih]
    simp [SupabaseQuery.eq, List.append_assoc]

/-- The order loop appends one entry per column, ascending exactly when the
direction string lowercases to `"asc"`. -/
theorem applyOrder_spec (order : List (String × String)) (q : SupabaseQuery) :
    applyOrder q order =
      { q with orders := q.orders ++
          order.map (fun cd => (cd.1, if strLower cd.2 = "asc" then false else true)) } := by
  induction order generalizing q with
  | nil => simp [applyOrder]
  | cons cd os ih =>
    rw [show applyOrder q (cd :: os) =
        applyOrder (if strLower cd.2 = "asc" then q.order cd.1 false else q.order cd.1 true) os
      from rfl]
    by_cases h : strLower cd.2 = "asc"
    · rw [if_pos h, ih]
      simp [SupabaseQuery.order, h, List.append_assoc]
    · rw [if_neg h, ih]
      simp [SupabaseQuery.order, h, List.append_assoc]

/-- Closed form of the query `query_data` builds: the table and column list
verbatim, the filters as equality predicates in order, each order entry with
its direction flag, and the limit only when present and non-zero. -/
theorem builtQuery_spec (p : QueryParams) :
    builtQuery p =
      { table := p.table, select := p.select,
        eqFilters := p.filters.getD [],
        orders := (p.order.getD []).map
          (fun cd => (cd.1, if strLower cd.2 = "asc" then false else true)),
        limitVal :=
          match p.limit with
          | none => none
          | some n => if n = 0 then none else some n } := by
  rcases p with ⟨tb, sel, fl, lim, ord⟩
  have h1 : (if truthyOptList fl then applyFilters (tableSelect tb sel) (fl.getD [])
      else tableSelect tb sel) =
      { table := tb, select := sel, eqFilters := fl.getD [], orders := [],
        limitVal := none } := by
    rcases fl with _ | (_ | ⟨a, as⟩) <;>
      simp [truthyOptList, applyFilters_spec, tableSelect]
  have h2 : (if truthyOptList ord then
        applyOrder
          { table := tb, select := sel, eqFilters := fl.getD [], orders := [],
            limitVal := none }
          (ord.getD [])
      else
        { table := tb, select := sel, eqFilters := fl.getD [], orders := [],
          limitVal := none }) =
      { table := tb, select := sel, eqFilters := fl.getD [],
        orders := (ord.getD []).map
          (fun cd => (cd.1, if strLower cd.2 = "asc" then false else true)),
        limitVal := none } := by
    rcases ord with _ | (_ | ⟨a, as⟩) <;>
      simp [truthyOptList, applyOrder_spec]
  show (if truthyOptInt lim then
      (if truthyOptList ord then
        applyOrder (if truthyOptList fl then applyFilters (tableSelect tb sel) (fl.getD [])
          else tableSelect tb sel) (ord.getD [])
      else (if truthyOptList fl then applyFilters (tableSelect tb sel) (fl.getD [])
        else tableSelect tb sel)).limit (lim.getD 0)
    else (if truthyOptList ord then
        applyOrder (if truthyOptList fl then applyFilters (tableSelect tb sel) (fl.getD [])
          else tableSelect tb sel) (ord.getD [])
      else (if truthyOptList fl then applyFilters (tableSelect tb sel) (fl.getD [])
        else tableSelect tb sel))) = _
  rw [h1, h2]
  rcases lim with _ | n
  · simp [truthyOptInt]
  · by_cases hn : n = 0
    · simp [truthyOptInt, hn]
    · simp [truthyOptInt, hn, SupabaseQuery.limit]

/-- On a successful store response, `query_data` issues exactly the built
query and returns the store rows untouched. -/
theorem query_data_ok (env : Env) (p : QueryParams) (rows : List DBRow)
    (hc : env.supabaseConfigured = true)
    (h : env.table (DBTableCall.query (builtQuery p)) = Except.ok rows) :
    query_data env p =
      (Except.ok { message := "Data retrieved from " ++ p.table, data := rowsToJVal rows },
       [Call.table (DBTableCall.query (builtQuery p))]) := by
  simp [query_data, hc, runHandler, h]

/-- A concrete environment for witnesses: configured clients, every database
call answering one fixed row, `rpc` answering null, `chat` answering one
fixed completion. -/
def envHappy : Env :=
  { supabaseConfigured := true, openaiConfigured := true,
    table := fun _ => Except.ok [[("id", JVal.jint 5)]],
    rpc := fun _ _ => Except.ok JVal.jnull,
    chat := fun _ _ => Except.ok { choices := [{ message := { content := "TAILORED" } }] } }

/-! ## Claims about `query_data` and `create_table` -/

/-- C5 (amended): for every QueryData request, the query issued to the
database client selects the given column list from the named table, applies
every given filter as an equality predicate (all conjoined, no other
operators), applies each given order entry to its column as ascending or
descending, applies the given row-count limit when it is present and
non-zero (a present limit of 0 falls through the truthiness guard), and on a
successful store response the operation returns the store's raw row set
unmodified. -/
theorem claim_C5_query_data_shape (p : QueryParams) :
    ((builtQuery p).table = p.table ∧
     (builtQuery p).select = p.select ∧
     (builtQuery p).eqFilters = p.filters.getD [] ∧
     (builtQuery p).orders = (p.order.getD []).map
       (fun cd => (cd.1, if strLower cd.2 = "asc" then false else true)) ∧
     (builtQuery p).limitVal =
       (match p.limit with
        | none => none
        | some n => if n = 0 then none else some n)) ∧
    (∀ env rows, env.supabaseConfigured = true →
      env.table (DBTableCall.query (builtQuery p)) = Except.ok rows →
      query_data env p =
        (Except.ok { message := "Data retrieved from " ++ p.table, data := rowsToJVal rows },
         [Call.table (DBTableCall.query (builtQuery p))])) := by
  refine ⟨?_, fun env rows hc h => query_data_ok env p rows hc h⟩
  rw [builtQuery_spec]
  exact ⟨rfl, rfl, rfl, rfl, rfl⟩

/-- C5 witness: a concrete query with a filter, an ordering and a non-zero
limit, against `envHappy`. -/
theorem claim_C5_witness :
    query_data envHappy
      { table := "resumes", select := "id,content",
        filters := some [("id", JVal.jint 5)], limit := some 1,
        order := some [("id", "asc")] } =
      (Except.ok { message := "Data retrieved from resumes", data := rowsToJVal [[("id", JVal.jint 5)]] },
       [Call.table (DBTableCall.query (builtQuery
         { table := "resumes", select := "id,content",
           filters := some [("id", JVal.jint 5)], limit := some 1,
           order := some [("id", "asc")] }))]) :=
  (claim_C5_query_data_shape
    { table := "resumes", select := "id,content",
      filters := some [("id", JVal.jint 5)], limit := some 1,
      order := some [("id", "asc")] }).2 envHappy [[("id", JVal.jint 5)]] rfl rfl

/-- C5 counterexample: the claim as stated applies the limit whenever it is
present, but a present limit of 0 leaves the issued query without any limit. -/
theorem claim_C5_counterexample :
    ({ table := "t", select := "*", limit := some 0 } : QueryParams).limit = some 0 ∧
    (builtQuery { table := "t", select := "*", limit := some 0 }).limitVal = none :=
  ⟨rfl, rfl⟩

/-- C9: a QueryData request with limit 0 falls through the `if params.limit:`
truthiness guard: no limit is applied to the issued query (the limit is
applied only when present and non-zero), the query equals the one built with
no limit at all, and on success the full matching row set is returned rather
than zero rows. -/
theorem claim_C9_limit_zero_unlimited (p : QueryParams) (h : p.limit = some 0) :
    (builtQuery p).limitVal = none ∧
    builtQuery p = builtQuery { p with limit := none } ∧
    (∀ env rows, env.supabaseConfigured = true →
      env.table (DBTableCall.query (builtQuery p)) = Except.ok rows →
      query_data env p =
        (Except.ok { message := "Data retrieved from " ++ p.table, data := rowsToJVal rows },
         [Call.table (DBTableCall.query (builtQuery p))])) := by
  refine ⟨?_, ?_, fun env rows hc hq => query_data_ok env p rows hc hq⟩
  · rw [builtQuery_spec]
    simp [h]
  · rw [builtQuery_spec, builtQuery_spec]
    simp [h]

/-- C9 witness: limit 0 issues an unlimited query and `envHappy`'s full row
set comes back. -/
theorem claim_C9_witness :
    (builtQuery { table := "t", select := "*", limit := some 0 }).limitVal = none ∧
    query_data envHappy { table := "t", select := "*", limit := some 0 } =
      (Except.ok { message := "Data retrieved from t", data := rowsToJVal [[("id", JVal.jint 5)]] },
       [Call.table (DBTableCall.query
         (builtQuery { table := "t", select := "*", limit := some 0 }))]) :=
  ⟨(claim_C9_limit_zero_unlimited { table := "t", select := "*", limit := some 0 } rfl).1,
   (claim_C9_limit_zero_unlimited { table := "t", select := "*", limit := some 0 } rfl).2.2
     envHappy [[("id", JVal.jint 5)]] rfl rfl⟩

/-- C10: with an order mapping present, each column whose direction string
lowercases to exactly "asc" is ordered ascending (desc flag false) and every
other direction string — misspellings, "ascending", the empty string — is
ordered descending (desc flag true). -/
theorem claim_C10_order_directions (p : QueryParams) (l : List (String × String))
    (h : p.order = some l) :
    (builtQuery p).orders =
      l.map (fun cd => (cd.1, if strLower cd.2 = "asc" then false else true)) := by
  rw [builtQuery_spec]
  simp [h]

/-- C10 witness: "ASC" lowercases to "asc" and orders ascending; "ascending",
the empty string and "DESC" all order descending. -/
theorem claim_C10_witness :
    (builtQuery
      { table := "t", select := "*",
        order := some [("a", "ASC"), ("b", "ascending"), ("c", ""), ("d", "DESC")] }).orders =
      [("a", false), ("b", true), ("c", true), ("d", true)] :=
  (claim_C10_order_directions
    { table := "t", select := "*",
      order := some [("a", "ASC"), ("b", "ascending"), ("c", ""), ("d", "DESC")] }
    [("a", "ASC"), ("b", "ascending"), ("c", ""), ("d", "DESC")] rfl).trans (by decide)

/-- C8 (amended): for every CreateTable request the SQL string sent to the
raw-SQL remote procedure `run_sql_query` is exactly
`CREATE TABLE name (c1 t1, ..., cn tn);` over the column mapping in
iteration order, with `PRIMARY KEY (pk)` appended as a final element exactly
when a non-empty primary key is given (an empty-string primary key falls
through the truthiness guard), with no escaping or quoting of any
identifier; the handler issues exactly that one rpc call. -/
theorem claim_C8_create_table_sql (env : Env) (req : CreateTableRequest)
    (hc : env.supabaseConfigured = true) :
    createTableSQL req =
      "CREATE TABLE " ++ req.table_name ++ " (" ++
        String.intercalate ", "
          (req.columns.map (fun ct => ct.1 ++ " " ++ ct.2) ++
            (match req.primary_key with
             | none => []
             | some pk => if pk = "" then [] else ["PRIMARY KEY (" ++ pk ++ ")"])) ++
        ");" ∧
    (create_table env req).2 =
      [Call.rpc "run_sql_query" (some [("sql_query", JVal.jstr (createTableSQL req))])] := by
  constructor
  · show ("CREATE TABLE " ++ req.table_name ++ " (" ++
      String.intercalate ", "
        (if truthyOptStr req.primary_key then
          (req.columns.foldl (fun acc ct => acc ++ [ct.1 ++ " " ++ ct.2]) []) ++
            ["PRIMARY KEY (" ++ req.primary_key.getD "" ++ ")"]
        else req.columns.foldl (fun acc ct => acc ++ [ct.1 ++ " " ++ ct.2]) []) ++ ");") = _
    rw [foldl_push_eq_map]
    rcases hp : req.primary_key with _ | pk
    · simp [truthyOptStr]
    · by_cases he : pk = ""
      · simp [truthyOptStr, he]
      · simp [truthyOptStr, he]
  · rcases hr : env.rpc "run_sql_query"
        (some [("sql_query", JVal.jstr (createTableSQL req))]) with m | v <;>
      simp [create_table, hc, runHandler, hr]

/-- C8 witness: a two-column table with a non-empty primary key. -/
theorem claim_C8_witness :
    createTableSQL
      { table_name := "users", columns := [("id", "serial"), ("name", "text")],
        primary_key := some "id" } =
      "CREATE TABLE users (id serial, name text, PRIMARY KEY (id));" ∧
    (create_table envHappy
      { table_name := "users", columns := [("id", "serial"), ("name", "text")],
        primary_key := some "id" }).2 =
      [Call.rpc "run_sql_query" (some [("sql_query", JVal.jstr (createTableSQL
        { table_name := "users", columns := [("id", "serial"), ("name", "text")],
          primary_key := some "id" }))])] :=
  ⟨(claim_C8_create_table_sql envHappy
      { table_name := "users", columns := [("id", "serial"), ("name", "text")],
        primary_key := some "id" } rfl).1.trans (by decide),
   (claim_C8_create_table_sql envHappy
      { table_name := "users", columns := [("id", "serial"), ("name", "text")],
        primary_key := some "id" } rfl).2⟩

/-- C8 counterexample: the claim as stated appends `PRIMARY KEY (...)`
exactly when a primary key is given, but a given empty-string primary key is
dropped by the `if request.primary_key:` truthiness guard. -/
theorem claim_C8_counterexample :
    ({ table_name := "t", columns := [("a", "int")],
       primary_key := some "" } : CreateTableRequest).primary_key = some "" ∧
    createTableSQL
      { table_name := "t", columns := [("a", "int")], primary_key := some "" } =
      "CREATE TABLE t (a int);" :=
  ⟨rfl, by decide⟩

/-! ## Claims about `tailor_resume`, `insert_sample_data` and `upload_resume` -/

/-- Environment where every select returns no rows. -/
def envNoRows : Env :=
  { supabaseConfigured := true, openaiConfigured := true,
    table := fun _ => Except.ok [],
    rpc := fun _ _ => Except.ok JVal.jnull,
    chat := fun _ _ => Except.error "unexpected completion call" }

/-- Environment where the user's resume exists but every other lookup
returns no rows. -/
def envNoJob : Env :=
  { supabaseConfigured := true, openaiConfigured := true,
    table := fun c =>
      match c with
      | DBTableCall.query q =>
          if q.table = "resumes" then
            Except.ok [[("id", JVal.jint 1), ("user_id", JVal.jstr "u1"),
              ("content", JVal.jstr "base resume")]]
          else Except.ok []
      | _ => Except.ok [],
    rpc := fun _ _ => Except.ok JVal.jnull,
    chat := fun _ _ => Except.error "unexpected completion call" }

/-- C1 (code defect): when a lookup returns no rows, `tailor_resume` raises
`HTTPException(400, "User not found")` / `HTTPException(400, "Job not found")`
inside its own `try` block, and the catch-all `except Exception` rewraps it:
the caller receives HTTP 500 with the stringified 400 as detail, not the
400-class client error the route's own `responses` documentation declares —
though, as claimed, no completion call is ever issued. -/
theorem claim_C1_notfound_rewrapped_as_500 :
    tailor_resume envNoRows { user_id := "missing-user", job_id := 1 } =
      (Except.error { status := 500, detail := "400: User not found" },
       [Call.table (DBTableCall.query (resumesQuery "missing-user"))]) ∧
    tailor_resume envNoJob { user_id := "u1", job_id := 99 } =
      (Except.error { status := 500, detail := "400: Job not found" },
       [Call.table (DBTableCall.query (resumesQuery "u1")),
        Call.table (DBTableCall.query (jobsQuery 99))]) := by
  constructor <;> rfl

/-- Environment for the tailoring happy path: distinct resume and job rows,
a fixed non-empty completion, inserts acknowledged with an empty row list. -/
def envTailorHappy : Env :=
  { supabaseConfigured := true, openaiConfigured := true,
    table := fun c =>
      match c with
      | DBTableCall.query q =>
          if q.table = "resumes" then
            Except.ok [[("id", JVal.jint 7), ("user_id", JVal.jstr "u1"),
              ("content", JVal.jstr "base resume")]]
          else
            Except.ok [[("id", JVal.jint 3), ("description", JVal.jstr "job text")]]
      | _ => Except.ok [],
    rpc := fun _ _ => Except.ok JVal.jnull,
    chat := fun _ _ => Except.ok { choices := [{ message := { content := "TAILORED" } }] } }

/-- Environment identical to `envTailorHappy` except that the completion's
first message text is empty. -/
def envEmptyCompletion : Env :=
  { envTailorHappy with
    chat := fun _ _ => Except.ok { choices := [{ message := { content := "" } }] } }

/-- C2 (amended): on existing rows and successful external calls,
`tailor_resume` builds the single prompt embedding the looked-up resume
content and the job description text, sends it to the completion client with
the fixed system message and the fixed model "gpt-3.5-turbo", takes the
first returned message's text as the tailored resume, writes exactly one
`tailored_resumes` row whose user_id, job_id, base_resume_id and content are
the request's user_id, the request's job_id, the looked-up resume's id and
the generated text, and returns that triple — the tailored content equals
the completion text verbatim and may be empty. -/
theorem claim_C2_tailor_success (env : Env) (req : TailorResumeRequest)
    (r : DBRow) (rs : List DBRow) (idv cv : JVal)
    (j : DBRow) (js : List DBRow) (dv : JVal)
    (t : String) (cs : List ChatChoice) (ins : List DBRow)
    (hs : env.supabaseConfigured = true) (ho : env.openaiConfigured = true)
    (hres : env.table (DBTableCall.query (resumesQuery req.user_id)) = Except.ok (r :: rs))
    (hid : r.lookup "id" = some idv)
    (hcontent : r.lookup "content" = some cv)
    (hjob : env.table (DBTableCall.query (jobsQuery req.job_id)) = Except.ok (j :: js))
    (hdesc : j.lookup "description" = some dv)
    (hchat : env.chat "gpt-3.5-turbo"
        [systemMessage, { role := "user", content := tailorPrompt cv dv }] =
      Except.ok { choices := { message := { content := t } } :: cs })
    (hins : env.table (DBTableCall.insert "tailored_resumes"
        (InsertPayload.one (tailoredRowData req.user_id req.job_id idv t))) =
      Except.ok ins) :
    tailor_resume env req =
      (Except.ok { user_id := req.user_id, job_id := req.job_id, tailored_resume := t },
       [Call.table (DBTableCall.query (resumesQuery req.user_id)),
        Call.table (DBTableCall.query (jobsQuery req.job_id)),
        Call.chat "gpt-3.5-turbo"
          [systemMessage, { role := "user", content := tailorPrompt cv dv }],
        Call.table (DBTableCall.insert "tailored_resumes"
          (InsertPayload.one (tailoredRowData req.user_id req.job_id idv t)))]) ∧
    tailorPrompt cv dv =
      promptPrefix ++ pyToStr cv ++ promptMiddle ++ pyToStr dv ++ promptSuffix := by
  refine ⟨?_, rfl⟩
  simp [tailor_resume, hs, ho, runHandler, tailorBody, hres, hid, hcontent, hjob,
    hdesc, hchat, hins, pyHead, dictGet]
  rfl

/-- C2 witness: the happy-path environment produces the full success
behaviour at user "u1", job 3, with tailored text "TAILORED". -/
theorem claim_C2_witness :
    tailor_resume envTailorHappy { user_id := "u1", job_id := 3 } =
      (Except.ok { user_id := "u1", job_id := 3, tailored_resume := "TAILORED" },
       [Call.table (DBTableCall.query (resumesQuery "u1")),
        Call.table (DBTableCall.query (jobsQuery 3)),
        Call.chat "gpt-3.5-turbo"
          [systemMessage,
           { role := "user",
             content := tailorPrompt (JVal.jstr "base resume") (JVal.jstr "job text") }],
        Call.table (DBTableCall.insert "tailored_resumes"
          (InsertPayload.one (tailoredRowData "u1" 3 (JVal.jint 7) "TAILORED")))]) :=
  (claim_C2_tailor_success envTailorHappy { user_id := "u1", job_id := 3 }
    [("id", JVal.jint 7), ("user_id", JVal.jstr "u1"), ("content", JVal.jstr "base resume")]
    [] (JVal.jint 7) (JVal.jstr "base resume")
    [("id", JVal.jint 3), ("description", JVal.jstr "job text")] [] (JVal.jstr "job text")
    "TAILORED" [] []
    rfl rfl rfl rfl rfl rfl rfl rfl rfl).1

/-- C2 counterexample: all rows exist and every external call succeeds, yet
the operation returns an empty tailored_resume — the claim's "non-empty
tailored content" is false on this input. -/
theorem claim_C2_counterexample :
    (tailor_resume envEmptyCompletion { user_id := "u1", job_id := 3 }).1 =
      Except.ok { user_id := "u1", job_id := 3, tailored_resume := "" } := by
  rfl

/-- C4: a successful InsertSampleData call inserts exactly one resumes row
carrying the freshly generated user identifier and the fixed sample resume,
exactly one job_descriptions row carrying the fixed sample description, and
returns the success message, the generated user_id, and the id the store
assigned to the inserted job-description row. -/
theorem claim_C4_insert_sample_data (env : Env) (freshUserId : String)
    (rrows : List DBRow) (j : DBRow) (js : List DBRow) (idv : JVal)
    (hs : env.supabaseConfigured = true)
    (h1 : env.table (DBTableCall.insert "resumes"
        (InsertPayload.one (resumeRowData freshUserId sampleBaseResume))) = Except.ok rrows)
    (h2 : env.table (DBTableCall.insert "job_descriptions"
        (InsertPayload.one (jobRowData sampleJobDescription))) = Except.ok (j :: js))
    (hid : j.lookup "id" = some idv) :
    insert_sample_data env freshUserId =
      (Except.ok { message := "Sample data inserted successfully", user_id := freshUserId, job_id := idv },
       [Call.table (DBTableCall.insert "resumes"
          (InsertPayload.one (resumeRowData freshUserId sampleBaseResume))),
        Call.table (DBTableCall.insert "job_descriptions"
          (InsertPayload.one (jobRowData sampleJobDescription)))]) := by
  simp [insert_sample_data, hs, runHandler, insertSampleDataBody, h1, h2, pyHead,
    dictGet, hid]

/-- C4 witness: under `envHappy`, the generated identifier flows through and
the returned job_id is the store-assigned id 5. -/
theorem claim_C4_witness :
    insert_sample_data envHappy "generated-user" =
      (Except.ok { message := "Sample data inserted successfully", user_id := "generated-user", job_id := JVal.jint 5 },
       [Call.table (DBTableCall.insert "resumes"
          (InsertPayload.one (resumeRowData "generated-user" sampleBaseResume))),
        Call.table (DBTableCall.insert "job_descriptions"
          (InsertPayload.one (jobRowData sampleJobDescription)))]) :=
  claim_C4_insert_sample_data envHappy "generated-user"
    [[("id", JVal.jint 5)]] [("id", JVal.jint 5)] [] (JVal.jint 5) rfl rfl rfl rfl

/-- C6 (amended): UploadResume issues exactly one insert of one resumes row
(an insert, never an update or upsert, so no existing row is overwritten);
with no user_id supplied, or with a supplied empty-string user_id (falsy
under Python `or`), the freshly generated identifier is used, and a supplied
non-empty user_id is used verbatim. -/
theorem claim_C6_upload_resume (env : Env) (freshUserId : String)
    (req : ResumeUploadRequest) (r : DBRow) (rs : List DBRow) (rid : JVal)
    (hs : env.supabaseConfigured = true)
    (h1 : env.table (DBTableCall.insert "resumes"
        (InsertPayload.one (resumeRowData (uploadUserId req.user_id freshUserId)
          req.content))) = Except.ok (r :: rs))
    (hid : r.lookup "id" = some rid) :
    upload_resume env freshUserId req =
      (Except.ok
        { message := "Resume uploaded successfully",
          data := JVal.jobj [("user_id", JVal.jstr (uploadUserId req.user_id freshUserId)),
            ("resume_id", rid)] },
       [Call.table (DBTableCall.insert "resumes"
          (InsertPayload.one (resumeRowData (uploadUserId req.user_id freshUserId)
            req.content)))]) ∧
    (req.user_id = none → uploadUserId req.user_id freshUserId = freshUserId) ∧
    (∀ u, req.user_id = some u → u ≠ "" → uploadUserId req.user_id freshUserId = u) ∧
    (req.user_id = some "" → uploadUserId req.user_id freshUserId = freshUserId) := by
  refine ⟨?_, ?_, ?_, ?_⟩
  · simp [upload_resume, hs, runHandler, h1, hid, dictGet]
  · intro h
    simp [uploadUserId, h, truthyOptStr]
  · intro u h hne
    simp [uploadUserId, h, truthyOptStr, hne]
  · intro h
    simp [uploadUserId, h, truthyOptStr]

/-- C6 witness: a supplied non-empty user_id "alice" is inserted verbatim. -/
theorem claim_C6_witness :
    upload_resume envHappy "fresh-uuid" { user_id := some "alice", content := "my resume" } =
      (Except.ok { message := "Resume uploaded successfully", data := JVal.jobj [("user_id", JVal.jstr "alice"), ("resume_id", JVal.jint 5)] },
       [Call.table (DBTableCall.insert "resumes"
          (InsertPayload.one (resumeRowData "alice" "my resume")))]) ∧
    uploadUserId (some "alice") "fresh-uuid" = "alice" :=
  ⟨(claim_C6_upload_resume envHappy "fresh-uuid"
      { user_id := some "alice", content := "my resume" }
      [("id", JVal.jint 5)] [] (JVal.jint 5) rfl rfl rfl).1,
   (claim_C6_upload_resume envHappy "fresh-uuid"
      { user_id := some "alice", content := "my resume" }
      [("id", JVal.jint 5)] [] (JVal.jint 5) rfl rfl rfl).2.2.1 "alice" rfl (by decide)⟩

/-- C6 counterexample: a supplied (but empty) user_id is not used verbatim —
the inserted row carries the freshly generated identifier instead. -/
theorem claim_C6_counterexample :
    ({ user_id := some "", content := "c" } : ResumeUploadRequest).user_id = some "" ∧
    (upload_resume envHappy "fresh-uuid" { user_id := some "", content := "c" }).2 =
      [Call.table (DBTableCall.insert "resumes"
        (InsertPayload.one (resumeRowData "fresh-uuid" "c")))] ∧
    "fresh-uuid" ≠ "" :=
  ⟨rfl, rfl, by decide⟩

/-! ## Claims about configuration guards and upstream error propagation -/

/-- C7: every operation that uses the database client fails, when the
Supabase client is unconfigured, with the configuration error (HTTP 500,
"Supabase client not initialized. Check environment variables.") and an
empty trace — before issuing any external call; `tailor_resume` additionally
fails the same way, still before any external call, with the OpenAI
configuration error when the completion client is unconfigured. -/
theorem claim_C7_unconfigured_guards (env : Env) :
    (env.supabaseConfigured = false →
      (∀ freshUserId, insert_sample_data env freshUserId =
        (Except.error { status := 500, detail := supabaseNotInitializedDetail }, [])) ∧
      (∀ req, tailor_resume env req =
        (Except.error { status := 500, detail := supabaseNotInitializedDetail }, [])) ∧
      list_tables env =
        (Except.error { status := 500, detail := supabaseNotInitializedDetail }, []) ∧
      get_schema env =
        (Except.error { status := 500, detail := supabaseNotInitializedDetail }, []) ∧
      (∀ p, query_data env p =
        (Except.error { status := 500, detail := supabaseNotInitializedDetail }, [])) ∧
      (∀ r, insert_data env r =
        (Except.error { status := 500, detail := supabaseNotInitializedDetail }, [])) ∧
      (∀ r, update_data env r =
        (Except.error { status := 500, detail := supabaseNotInitializedDetail }, [])) ∧
      (∀ r, delete_data env r =
        (Except.error { status := 500, detail := supabaseNotInitializedDetail }, [])) ∧
      (∀ r, execute_raw_sql env r =
        (Except.error { status := 500, detail := supabaseNotInitializedDetail }, [])) ∧
      (∀ r, create_table env r =
        (Except.error { status := 500, detail := supabaseNotInitializedDetail }, [])) ∧
      (∀ freshUserId r, upload_resume env freshUserId r =
        (Except.error { status := 500, detail := supabaseNotInitializedDetail }, [])) ∧
      (∀ r, upload_job_description env r =
        (Except.error { status := 500, detail := supabaseNotInitializedDetail }, []))) ∧
    (env.supabaseConfigured = true → env.openaiConfigured = false →
      ∀ req, tailor_resume env req =
        (Except.error { status := 500, detail := openaiNotConfiguredDetail }, [])) := by
  constructor
  · intro h
    refine ⟨fun f => ?_, fun r => ?_, ?_, ?_, fun p => ?_, fun r => ?_, fun r => ?_,
      fun r => ?_, fun r => ?_, fun r => ?_, fun f r => ?_, fun r => ?_⟩ <;>
      simp [insert_sample_data, tailor_resume, list_tables, get_schema, query_data,
        insert_data, update_data, delete_data, execute_raw_sql, create_table,
        upload_resume, upload_job_description, h, configError]
  · intro hs ho req
    simp [tailor_resume, hs, ho, configError]

/-- Environment with neither client configured. -/
def envOff : Env :=
  { supabaseConfigured := false, openaiConfigured := false,
    table := fun _ => Except.error "unreachable",
    rpc := fun _ _ => Except.error "unreachable",
    chat := fun _ _ => Except.error "unreachable" }

/-- Environment with a database client but no OpenAI key. -/
def envDbOnly : Env :=
  { envOff with supabaseConfigured := true }

/-- C7 witness: three concrete guard failures, all with empty traces. -/
theorem claim_C7_witness :
    insert_sample_data envOff "u" =
      (Except.error { status := 500, detail := supabaseNotInitializedDetail }, []) ∧
    query_data envOff { table := "t" } =
      (Except.error { status := 500, detail := supabaseNotInitializedDetail }, []) ∧
    tailor_resume envDbOnly { user_id := "u", job_id := 1 } =
      (Except.error { status := 500, detail := openaiNotConfiguredDetail }, []) :=
  ⟨((claim_C7_unconfigured_guards envOff).1 rfl).1 "u",
   (((claim_C7_unconfigured_guards envOff).1 rfl).2.2.2.2).1 { table := "t" },
   (claim_C7_unconfigured_guards envDbOnly).2 rfl rfl { user_id := "u", job_id := 1 }⟩

/-- C3: every exception raised by the database client or the completion
client during an operation is caught at that operation's boundary and
reported as HTTP 500 whose detail text is exactly the original error text;
the trace in each failing scenario contains the failed call exactly once —
no operation retries a failed external call.  (`GetWelcome` issues no
external call, so the property is vacuous for it.) -/
theorem claim_C3_upstream_errors_as_500 (env : Env)
    (hs : env.supabaseConfigured = true) :
    (∀ freshUserId m,
      env.table (DBTableCall.insert "resumes"
        (InsertPayload.one (resumeRowData freshUserId sampleBaseResume))) = Except.error m →
      insert_sample_data env freshUserId =
        (Except.error { status := 500, detail := m },
         [Call.table (DBTableCall.insert "resumes"
            (InsertPayload.one (resumeRowData freshUserId sampleBaseResume)))])) ∧
    (∀ freshUserId rrows m,
      env.table (DBTableCall.insert "resumes"
        (InsertPayload.one (resumeRowData freshUserId sampleBaseResume))) = Except.ok rrows →
      env.table (DBTableCall.insert "job_descriptions"
        (InsertPayload.one (jobRowData sampleJobDescription))) = Except.error m →
      insert_sample_data env freshUserId =
        (Except.error { status := 500, detail := m },
         [Call.table (DBTableCall.insert "resumes"
            (InsertPayload.one (resumeRowData freshUserId sampleBaseResume))),
          Call.table (DBTableCall.insert "job_descriptions"
            (InsertPayload.one (jobRowData sampleJobDescription)))])) ∧
    (∀ req m, env.openaiConfigured = true →
      env.table (DBTableCall.query (resumesQuery req.user_id)) = Except.error m →
      tailor_resume env req =
        (Except.error { status := 500, detail := m },
         [Call.table (DBTableCall.query (resumesQuery req.user_id))])) ∧
    (∀ req m r rs idv cv, env.openaiConfigured = true →
      env.table (DBTableCall.query (resumesQuery req.user_id)) = Except.ok (r :: rs) →
      r.lookup "id" = some idv → r.lookup "content" = some cv →
      env.table (DBTableCall.query (jobsQuery req.job_id)) = Except.error m →
      tailor_resume env req =
        (Except.error { status := 500, detail := m },
         [Call.table (DBTableCall.query (resumesQuery req.user_id)),
          Call.table (DBTableCall.query (jobsQuery req.job_id))])) ∧
    (∀ req m r rs idv cv j js dv, env.openaiConfigured = true →
      env.table (DBTableCall.query (resumesQuery req.user_id)) = Except.ok (r :: rs) →
      r.lookup "id" = some idv → r.lookup "content" = some cv →
      env.table (DBTableCall.query (jobsQuery req.job_id)) = Except.ok (j :: js) →
      j.lookup "description" = some dv →
      env.chat "gpt-3.5-turbo"
        [systemMessage, { role := "user", content := tailorPrompt cv dv }] =
        Except.error m →
      tailor_resume env req =
        (Except.error { status := 500, detail := m },
         [Call.table (DBTableCall.query (resumesQuery req.user_id)),
          Call.table (DBTableCall.query (jobsQuery req.job_id)),
          Call.chat "gpt-3.5-turbo"
            [systemMessage, { role := "user", content := tailorPrompt cv dv }]])) ∧
    (∀ req m r rs idv cv j js dv t cs, env.openaiConfigured = true →
      env.table (DBTableCall.query (resumesQuery req.user_id)) = Except.ok (r :: rs) →
      r.lookup "id" = some idv → r.lookup "content" = some cv →
      env.table (DBTableCall.query (jobsQuery req.job_id)) = Except.ok (j :: js) →
      j.lookup "description" = some dv →
      env.chat "gpt-3.5-turbo"
        [systemMessage, { role := "user", content := tailorPrompt cv dv }] =
        Except.ok { choices := { message := { content := t } } :: cs } →
      env.table (DBTableCall.insert "tailored_resumes"
        (InsertPayload.one (tailoredRowData req.user_id req.job_id idv t))) =
        Except.error m →
      tailor_resume env req =
        (Except.error { status := 500, detail := m },
         [Call.table (DBTableCall.query (resumesQuery req.user_id)),
          Call.table (DBTableCall.query (jobsQuery req.job_id)),
          Call.chat "gpt-3.5-turbo"
            [systemMessage, { role := "user", content := tailorPrompt cv dv }],
          Call.table (DBTableCall.insert "tailored_resumes"
            (InsertPayload.one (tailoredRowData req.user_id req.job_id idv t)))])) ∧
    (∀ m, env.rpc "get_tables" none = Except.error m →
      list_tables env =
        (Except.error { status := 500, detail := m }, [Call.rpc "get_tables" none])) ∧
    (∀ m, env.rpc "get_schema_info" none = Except.error m →
      get_schema env =
        (Except.error { status := 500, detail := m }, [Call.rpc "get_schema_info" none])) ∧
    (∀ p m, env.table (DBTableCall.query (builtQuery p)) = Except.error m →
      query_data env p =
        (Except.error { status := 500, detail := m },
         [Call.table (DBTableCall.query (builtQuery p))])) ∧
    (∀ r m, env.table (DBTableCall.insert r.table r.data) = Except.error m →
      insert_data env r =
        (Except.error { status := 500, detail := m },
         [Call.table (DBTableCall.insert r.table r.data)])) ∧
    (∀ r m,
      env.table (DBTableCall.update r.table r.data r.match_column r.match_value) =
        Except.error m →
      update_data env r =
        (Except.error { status := 500, detail := m },
         [Call.table (DBTableCall.update r.table r.data r.match_column r.match_value)])) ∧
    (∀ r m,
      env.table (DBTableCall.delete r.table r.match_column r.match_value) =
        Except.error m →
      delete_data env r =
        (Except.error { status := 500, detail := m },
         [Call.table (DBTableCall.delete r.table r.match_column r.match_value)])) ∧
    (∀ r m,
      env.rpc "run_sql_query"
        (some [("sql_query", JVal.jstr r.query), ("params", JVal.jobj (r.params.getD []))]) =
        Except.error m →
      execute_raw_sql env r =
        (Except.error { status := 500, detail := m },
         [Call.rpc "run_sql_query"
            (some [("sql_query", JVal.jstr r.query),
              ("params", JVal.jobj (r.params.getD []))])])) ∧
    (∀ r m,
      env.rpc "run_sql_query" (some [("sql_query", JVal.jstr (createTableSQL r))]) =
        Except.error m →
      create_table env r =
        (Except.error { status := 500, detail := m },
         [Call.rpc "run_sql_query" (some [("sql_query", JVal.jstr (createTableSQL r))])])) ∧
    (∀ freshUserId r m,
      env.table (DBTableCall.insert "resumes"
        (InsertPayload.one (resumeRowData (uploadUserId r.user_id freshUserId) r.content))) =
        Except.error m →
      upload_resume env freshUserId r =
        (Except.error { status := 500, detail := m },
         [Call.table (DBTableCall.insert "resumes"
            (InsertPayload.one (resumeRowData (uploadUserId r.user_id freshUserId)
              r.content)))])) ∧
    (∀ r m,
      env.table (DBTableCall.insert "job_descriptions"
        (InsertPayload.one (jobRowData r.description))) = Except.error m →
      upload_job_description env r =
        (Except.error { status := 500, detail := m },
         [Call.table (DBTableCall.insert "job_descriptions"
            (InsertPayload.one (jobRowData r.description)))])) := by
  refine ⟨?_, ?_, ?_, ?_, ?_, ?_, ?_, ?_, ?_, ?_, ?_, ?_, ?_, ?_, ?_, ?_⟩
  · intro f m h
    simp [insert_sample_data, hs, runHandler, insertSampleDataBody, h]
  · intro f rrows m h1 h2
    simp [insert_sample_data, hs, runHandler, insertSampleDataBody, h1, h2]
  · intro req m ho h
    simp [tailor_resume, hs, ho, runHandler, tailorBody, h]
  · intro req m r rs idv cv ho h1 hid hcv h2
    simp [tailor_resume, hs, ho, runHandler, tailorBody, h1, hid, hcv, h2, pyHead, dictGet]
    rfl
  · intro req m r rs idv cv j js dv ho h1 hid hcv h2 hdv h3
    simp [tailor_resume, hs, ho, runHandler, tailorBody, h1, hid, hcv, h2, hdv, h3,
      pyHead, dictGet]
    rfl
  · intro req m r rs idv cv j js dv t cs ho h1 hid hcv h2 hdv h3 h4
    simp [tailor_resume, hs, ho, runHandler, tailorBody, h1, hid, hcv, h2, hdv, h3, h4,
      pyHead, dictGet]
    rfl
  · intro m h
    simp [list_tables, hs, runHandler, h]
  · intro m h
    simp [get_schema, hs, runHandler, h]
  · intro p m h
    simp [query_data, hs, runHandler, h]
  · intro r m h
    simp [insert_data, hs, runHandler, h]
  · intro r m h
    simp [update_data, hs, runHandler, h]
  · intro r m h
    simp [delete_data, hs, runHandler, h]
  · intro r m h
    simp [execute_raw_sql, hs, runHandler, h]
  · intro r m h
    simp [create_table, hs, runHandler, h]
  · intro f r m h
    simp [upload_resume, hs, runHandler, h]
  · intro r m h
    simp [upload_job_description, hs, runHandler, h]

/-- Environment whose every external call fails with "boom". -/
def envBoom : Env :=
  { supabaseConfigured := true, openaiConfigured := true,
    table := fun _ => Except.error "boom",
    rpc := fun _ _ => Except.error "boom",
    chat := fun _ _ => Except.error "boom" }

/-- C3 witness: concrete upstream failures surface as 500 with the original
message, each failed call issued once. -/
theorem claim_C3_witness :
    insert_sample_data envBoom "u" =
      (Except.error { status := 500, detail := "boom" },
       [Call.table (DBTableCall.insert "resumes"
          (InsertPayload.one (resumeRowData "u" sampleBaseResume)))]) ∧
    tailor_resume envBoom { user_id := "u", job_id := 1 } =
      (Except.error { status := 500, detail := "boom" },
       [Call.table (DBTableCall.query (resumesQuery "u"))]) ∧
    query_data envBoom { table := "t" } =
      (Except.error { status := 500, detail := "boom" },
       [Call.table (DBTableCall.query (builtQuery { table := "t" }))]) ∧
    execute_raw_sql envBoom { query := "SELECT 1" } =
      (Except.error { status := 500, detail := "boom" },
       [Call.rpc "run_sql_query"
          (some [("sql_query", JVal.jstr "SELECT 1"), ("params", JVal.jobj [])])]) := by
  have h := claim_C3_upstream_errors_as_500 envBoom rfl
  exact ⟨h.1 "u" "boom" rfl,
    h.2.2.1 { user_id := "u", job_id := 1 } "boom" rfl rfl,
    h.2.2.2.2.2.2.2.2.1 { table := "t" } "boom" rfl,
    h.2.2.2.2.2.2.2.2.2.2.2.2.1 { query := "SELECT 1" } "boom" rfl⟩

end ResumeGPT
